import Mathlib

/-!
Shallow embedding of `src/tiingo.py` (fuchiao/retire-early): a Tiingo HTTP
client (`TiingoClient.get_ticker_info`, `TiingoClient.get_ticker_prices`),
the daily-price record type (`TickerPrice` with `TickerPrice.from_json`),
and the one-file-per-ticker parquet cache (`TickerPriceStorage.read`).

Python exceptions are modelled by `Except PyErr`; `requests` responses by a
`Response` value (HTTP status plus the result of `response.json()`); the
filesystem by an explicit `FileSystem` value threaded through `read`;
pandas DataFrames by the list of row records they were built from, and
parquet files by the (deterministically serialized) DataFrame they hold.
-/

/-- Python exception values as they arise in this module: a generic
`Exception(msg)` (the module-level `ErrorTickerNotFound`), `KeyError` from a
missing dict key, `TypeError` from indexing or parsing a non-string,
`json.JSONDecodeError` from an unparseable response body, and `ValueError`
from `date.fromisoformat` on a malformed string. -/
inductive PyErr where
  | exception (msg : String)
  | keyError (k : String)
  | typeError
  | jsonDecodeError
  | valueError
deriving DecidableEq, Repr

/-- `ErrorTickerNotFound = Exception("Ticker not found")` — the single
module-level exception instance of `tiingo.py` line 18. -/
def ErrorTickerNotFound : PyErr := PyErr.exception "Ticker not found"

/-- A Python `datetime.date`: calendar date with no time component. -/
structure PyDate where
  year : Nat
  month : Nat
  day : Nat
deriving DecidableEq, Repr

/-- Numeric key giving the calendar order on dates. -/
def PyDate.key (d : PyDate) : Nat := d.year * 10000 + d.month * 100 + d.day

def isLeapYear (y : Nat) : Bool := y % 4 == 0 && (y % 100 != 0 || y % 400 == 0)

def daysInMonth (y m : Nat) : Nat :=
  if m = 2 then (if isLeapYear y then 29 else 28)
  else if m = 4 ∨ m = 6 ∨ m = 9 ∨ m = 11 then 30
  else 31

def digitVal (c : Char) : Nat := c.toNat - '0'.toNat

/-- `datetime.date.fromisoformat`: parses exactly the `YYYY-MM-DD` form,
validating month, day-of-month (leap years included) and the year range
1..9999; anything else raises `ValueError`. -/
def date_fromisoformat (s : String) : Except PyErr PyDate :=
  match s.toList with
  | [y1, y2, y3, y4, '-', m1, m2, '-', d1, d2] =>
    if (y1.isDigit && y2.isDigit && y3.isDigit && y4.isDigit &&
        m1.isDigit && m2.isDigit && d1.isDigit && d2.isDigit) then
      let y := digitVal y1 * 1000 + digitVal y2 * 100 + digitVal y3 * 10 + digitVal y4
      let m := digitVal m1 * 10 + digitVal m2
      let d := digitVal d1 * 10 + digitVal d2
      if 1 ≤ y ∧ y ≤ 9999 ∧ 1 ≤ m ∧ m ≤ 12 ∧ 1 ≤ d ∧ d ≤ daysInMonth y m then
        Except.ok ⟨y, m, d⟩
      else Except.error PyErr.valueError
    else Except.error PyErr.valueError
  | _ => Except.error PyErr.valueError

/-- `datetime.datetime.fromisoformat(s).date()` as used on Tiingo price
rows; modelled on the calendar-date strings the program's data takes
(the `YYYY-MM-DD` form), same validation as `date_fromisoformat`. -/
def datetime_fromisoformat_date (s : String) : Except PyErr PyDate :=
  date_fromisoformat s

/-- Parsed JSON values (`response.json()` results). Numbers are modelled
as rationals. -/
inductive Json where
  | null
  | bool (b : Bool)
  | num (q : ℚ)
  | str (s : String)
  | arr (elems : List Json)
  | obj (fields : List (String × Json))

/-- Python `j[k]` on a parsed-JSON value: a dict lookup (`KeyError` when
absent; for duplicate keys `json` keeps the last) and `TypeError` when the
value is not a dict. -/
def Json.getItem (j : Json) (k : String) : Except PyErr Json :=
  match j with
  | Json.obj kvs =>
    match kvs.reverse.find? (fun kv => kv.1 = k) with
    | some kv => Except.ok kv.2
    | none => Except.error (PyErr.keyError k)
  | _ => Except.error PyErr.typeError

/-- `fromisoformat` applied to a non-string raises `TypeError`. -/
def requireStr (j : Json) : Except PyErr String :=
  match j with
  | Json.str s => Except.ok s
  | _ => Except.error PyErr.typeError

/-- One row of daily price data (`TickerPrice` dataclass). The `date`
field is parsed to a date; the remaining fields are assigned straight from
the JSON values with no conversion, exactly as the Python dataclass
constructor does. -/
structure TickerPrice where
  date : PyDate
  «open» : Json
  high : Json
  low : Json
  close : Json
  volume : Json
  adjusted_open : Json
  adjusted_high : Json
  adjusted_low : Json
  adjusted_close : Json
  adjusted_volume : Json
  dividend_cash : Json
  split_factor : Json

/-- `TickerPrice.from_json`: field lookups and the date parse happen in the
source's keyword-argument order (`date` first). -/
def TickerPrice.from_json (json : Json) : Except PyErr TickerPrice := do
  let dateJ ← json.getItem "date"
  let dateS ← requireStr dateJ
  let d ← datetime_fromisoformat_date dateS
  let o ← json.getItem "open"
  let h ← json.getItem "high"
  let l ← json.getItem "low"
  let c ← json.getItem "close"
  let v ← json.getItem "volume"
  let ao ← json.getItem "adjOpen"
  let ah ← json.getItem "adjHigh"
  let al ← json.getItem "adjLow"
  let ac ← json.getItem "adjClose"
  let av ← json.getItem "adjVolume"
  let dc ← json.getItem "divCash"
  let sf ← json.getItem "splitFactor"
  return { date := d, «open» := o, high := h, low := l, close := c,
           volume := v, adjusted_open := ao, adjusted_high := ah,
           adjusted_low := al, adjusted_close := ac, adjusted_volume := av,
           dividend_cash := dc, split_factor := sf }

/-- Ticker metadata (`TickerInfo` NamedTuple). The four text fields are
assigned straight from JSON (no conversion in the source); the two date
fields go through `date.fromisoformat`. -/
structure TickerInfo where
  ticker : Json
  name : Json
  exchangeCode : Json
  description : Json
  startDate : PyDate
  endDate : PyDate

/-- An HTTP response: status code, and the parsed body — `none` models a
body on which `response.json()` raises `JSONDecodeError`. -/
structure Response where
  status : Nat
  body : Option Json

/-- `response.json()`. -/
def Response.json (r : Response) : Except PyErr Json :=
  match r.body with
  | some j => Except.ok j
  | none => Except.error PyErr.jsonDecodeError

/-- Python iteration over a parsed-JSON value, as the list comprehension in
`get_ticker_prices` performs: a list yields its elements, a string its
characters, a dict its keys; numbers, booleans and `None` raise
`TypeError`. -/
def pyIterate (j : Json) : Except PyErr (List Json) :=
  match j with
  | Json.arr xs => Except.ok xs
  | Json.str s => Except.ok (s.toList.map (fun c => Json.str (String.mk [c])))
  | Json.obj kvs => Except.ok (kvs.map (fun kv => Json.str kv.1))
  | _ => Except.error PyErr.typeError

/-- The list comprehension `[TickerPrice.from_json(p) for p in ...]`:
elements are mapped left to right, the first failure propagating. -/
def mapFromJson : List Json → Except PyErr (List TickerPrice)
  | [] => Except.ok []
  | p :: rest => do
    let r ← TickerPrice.from_json p
    let rs ← mapFromJson rest
    return r :: rs

namespace TiingoClient

/-- `TiingoClient.get_ticker_prices`, given the response the price-history
GET returned: parses the body and maps each element to a `TickerPrice`.
The HTTP status code is never inspected. -/
def get_ticker_prices (resp : Response) : Except PyErr (List TickerPrice) := do
  let j ← resp.json
  let elems ← pyIterate j
  mapFromJson elems

/-- `TiingoClient.get_ticker_info`, given the response the metadata GET
returned: on any status other than 200 it raises the module-level
`ErrorTickerNotFound` (after logging, which has no effect on the result);
on 200 it parses the six fields, converting `startDate`/`endDate` with
`date.fromisoformat`. -/
def get_ticker_info (resp : Response) : Except PyErr TickerInfo :=
  if resp.status ≠ 200 then
    Except.error ErrorTickerNotFound
  else do
    let j ← resp.json
    let tkr ← j.getItem "ticker"
    let nm ← j.getItem "name"
    let ex ← j.getItem "exchangeCode"
    let de ← j.getItem "description"
    let sdJ ← j.getItem "startDate"
    let sdS ← requireStr sdJ
    let sd ← date_fromisoformat sdS
    let edJ ← j.getItem "endDate"
    let edS ← requireStr edJ
    let ed ← date_fromisoformat edS
    return { ticker := tkr, name := nm, exchangeCode := ex,
             description := de, startDate := sd, endDate := ed }

end TiingoClient

/-- A pandas DataFrame as `read` builds and uses it: the list of
`TickerPrice` rows `pd.DataFrame(prices)` was given, in order. An empty
row list gives pandas a frame with zero rows AND zero columns, which is
what `DataFrame.columns` reflects. -/
structure DataFrame where
  records : List TickerPrice

/-- `pd.DataFrame(prices)` on a list of `TickerPrice` dataclass rows. -/
def pd_DataFrame (prices : List TickerPrice) : DataFrame := ⟨prices⟩

/-- The frame's column labels: the dataclass field names, except that the
frame built from an empty record list has no columns at all. -/
def DataFrame.columns (df : DataFrame) : List String :=
  if df.records.isEmpty then []
  else ["date", "open", "high", "low", "close", "volume",
        "adjusted_open", "adjusted_high", "adjusted_low", "adjusted_close",
        "adjusted_volume", "dividend_cash", "split_factor"]

/-- `df['date'].min()`: on the zero-column frame `df['date']` raises
`KeyError`; otherwise the calendar-least date of the column. -/
def DataFrame.dateMin (df : DataFrame) : Except PyErr PyDate :=
  match df.records with
  | [] => Except.error (PyErr.keyError "date")
  | r :: rs =>
    Except.ok (rs.foldl (fun a r2 => if r2.date.key < a.key then r2.date else a) r.date)

/-- `df['date'].max()`, analogously. -/
def DataFrame.dateMax (df : DataFrame) : Except PyErr PyDate :=
  match df.records with
  | [] => Except.error (PyErr.keyError "date")
  | r :: rs =>
    Except.ok (rs.foldl (fun a r2 => if a.key < r2.date.key then r2.date else a) r.date)

/-- A parquet file on disk: serialization is deterministic, so a file is
identified by the frame it encodes; byte-identical files are equal
`ParquetFile` values. -/
structure ParquetFile where
  data : DataFrame

/-- `df.to_parquet(filepath, engine='pyarrow')` produces these bytes. -/
def pd_to_parquet (df : DataFrame) : ParquetFile := ⟨df⟩

/-- `pd.read_parquet(filepath, engine='pyarrow')` on an existing file. -/
def pd_read_parquet (f : ParquetFile) : DataFrame := f.data

/-- The filesystem state `read` touches: whether the storage directory
exists, and the files in it, keyed by file name. -/
structure FileSystem where
  dirExists : Bool
  files : List (String × ParquetFile)

/-- `os.path.exists` / the file's content: the file stored under `p`. -/
def FileSystem.lookupFile (fs : FileSystem) (p : String) : Option ParquetFile :=
  (fs.files.find? (fun kv => kv.1 = p)).map (fun kv => kv.2)

/-- Writing file `p`: unconditionally replaces any prior content. -/
def FileSystem.writeFile (fs : FileSystem) (p : String) (f : ParquetFile) : FileSystem :=
  ⟨fs.dirExists, (p, f) :: fs.files.filter (fun kv => kv.1 ≠ p)⟩

/-- The environment `read` runs against: what the two HTTP endpoints
respond for a given ticker (and, for prices, a given date range). A fixed
environment models "no change in provider data" between calls. -/
structure HttpEnv where
  infoResponse : String → Response
  pricesResponse : String → PyDate → PyDate → Response

/-- What one `TickerPriceStorage.read` call produced: the filesystem
afterwards, the returned frame or the raised error, and whether
`get_ticker_prices` was called (the write to the cache file happens
exactly on that path, after a successful fetch). -/
structure ReadOutcome where
  fs : FileSystem
  res : Except PyErr DataFrame
  fetchedPrices : Bool

namespace TickerPriceStorage

/-- `TickerPriceStorage.__init__`: `self.path.mkdir(parents=True,
exist_ok=True)` — creates the storage directory if absent. -/
def init (fs : FileSystem) : FileSystem := ⟨true, fs.files⟩

/-- Lines 106–109 of the source: fetch the full price history for the
metadata's date range, materialize it into a frame, overwrite the cache
file, and return the frame re-loaded from the just-written file. -/
def fetchAndStore (env : HttpEnv) (fs : FileSystem) (ticker : String)
    (info : TickerInfo) (filepath : String) : ReadOutcome :=
  match TiingoClient.get_ticker_prices
      (env.pricesResponse ticker info.startDate info.endDate) with
  | Except.error e => ⟨fs, Except.error e, true⟩
  | Except.ok prices =>
    let df := pd_DataFrame prices
    let fs2 := fs.writeFile filepath (pd_to_parquet df)
    ⟨fs2, Except.ok (pd_read_parquet (pd_to_parquet df)), true⟩

/-- `TickerPriceStorage.read`: metadata fetch, freshness check against the
cached file's date bounds (`min` first — `and` short-circuits), cache hit
or full re-fetch. -/
def read (env : HttpEnv) (fs : FileSystem) (ticker : String) : ReadOutcome :=
  match TiingoClient.get_ticker_info (env.infoResponse ticker) with
  | Except.error e => ⟨fs, Except.error e, false⟩
  | Except.ok info =>
    let filepath := ticker ++ ".parquet"
    match fs.lookupFile filepath with
    | none => fetchAndStore env fs ticker info filepath
    | some file =>
      let df := pd_read_parquet file
      match df.dateMin with
      | Except.error e => ⟨fs, Except.error e, false⟩
      | Except.ok dmin =>
        if dmin = info.startDate then
          match df.dateMax with
          | Except.error e => ⟨fs, Except.error e, false⟩
          | Except.ok dmax =>
            if dmax = info.endDate then ⟨fs, Except.ok df, false⟩
            else fetchAndStore env fs ticker info filepath
        else fetchAndStore env fs ticker info filepath

end TickerPriceStorage

/-! Concrete fixtures: a sample Tiingo price row, provider environments and
filesystem states used to instantiate the theorems below. -/

/-- A Tiingo daily-price JSON row for the given date string, with the
field values of the spec's field-mapping example. -/
def sampleRowJson (d : String) : Json :=
  Json.obj [("date", Json.str d), ("open", Json.num 100.0), ("high", Json.num 101.5),
            ("low", Json.num 99.0), ("close", Json.num 100.5), ("volume", Json.num 1000),
            ("adjOpen", Json.num 100.0), ("adjHigh", Json.num 101.5), ("adjLow", Json.num 99.0),
            ("adjClose", Json.num 100.5), ("adjVolume", Json.num 1000), ("divCash", Json.num 0.0),
            ("splitFactor", Json.num 1.0)]

/-- The `TickerPrice` record that `from_json` produces from
`sampleRowJson` once its date string is parsed to `d`. -/
def priceRow (d : PyDate) : TickerPrice :=
  { date := d, «open» := Json.num 100.0, high := Json.num 101.5, low := Json.num 99.0,
    close := Json.num 100.5, volume := Json.num 1000, adjusted_open := Json.num 100.0,
    adjusted_high := Json.num 101.5, adjusted_low := Json.num 99.0,
    adjusted_close := Json.num 100.5, adjusted_volume := Json.num 1000,
    dividend_cash := Json.num 0.0, split_factor := Json.num 1.0 }

/-- A filesystem with no storage directory and no files. -/
def emptyFS : FileSystem := ⟨false, []⟩

/-- The spec's §8 scenario provider: metadata reports
startDate 2020-01-01 / endDate 2020-01-03, while the price history holds
two rows, 2020-01-02 and 2020-01-03 (the provider omits the non-trading
start day). -/
def qqqEnv : HttpEnv where
  infoResponse := fun _ =>
    ⟨200, some (Json.obj [("ticker", Json.str "QQQ"), ("name", Json.str "Invesco QQQ"),
                          ("exchangeCode", Json.str "NASDAQ"), ("description", Json.str "ETF"),
                          ("startDate", Json.str "2020-01-01"), ("endDate", Json.str "2020-01-03")])⟩
  pricesResponse := fun _ _ _ =>
    ⟨200, some (Json.arr [sampleRowJson "2020-01-02", sampleRowJson "2020-01-03"])⟩

/-- A provider whose price rows span exactly the metadata date range:
startDate 2020-01-02 / endDate 2020-01-03 with rows on both days. -/
def alignedEnv : HttpEnv where
  infoResponse := fun _ =>
    ⟨200, some (Json.obj [("ticker", Json.str "QQQ"), ("name", Json.str "Invesco QQQ"),
                          ("exchangeCode", Json.str "NASDAQ"), ("description", Json.str "ETF"),
                          ("startDate", Json.str "2020-01-02"), ("endDate", Json.str "2020-01-03")])⟩
  pricesResponse := fun _ _ _ =>
    ⟨200, some (Json.arr [sampleRowJson "2020-01-02", sampleRowJson "2020-01-03"])⟩

/-- The `TickerInfo` that `alignedEnv`'s metadata response parses to. -/
def alignedInfo : TickerInfo :=
  ⟨Json.str "QQQ", Json.str "Invesco QQQ", Json.str "NASDAQ", Json.str "ETF",
   ⟨2020, 1, 2⟩, ⟨2020, 1, 3⟩⟩

/-- A cache file holding the two 2020-01-02 / 2020-01-03 rows. -/
def hitFile : ParquetFile :=
  pd_to_parquet (pd_DataFrame [priceRow ⟨2020, 1, 2⟩, priceRow ⟨2020, 1, 3⟩])

/-- A filesystem already holding `hitFile` for ticker QQQ. -/
def hitFS : FileSystem := ⟨true, [("QQQ.parquet", hitFile)]⟩

/-- A provider both of whose endpoints return bodies that fail JSON
parsing. -/
def noJsonEnv : HttpEnv where
  infoResponse := fun _ => ⟨200, none⟩
  pricesResponse := fun _ _ _ => ⟨200, none⟩

/-- Good metadata, but a price-history body that fails JSON parsing. -/
def badPricesEnv : HttpEnv where
  infoResponse := alignedEnv.infoResponse
  pricesResponse := fun _ _ _ => ⟨200, none⟩

/-- Good metadata, but an empty price-history array. -/
def emptyPricesEnv : HttpEnv where
  infoResponse := alignedEnv.infoResponse
  pricesResponse := fun _ _ _ => ⟨200, some (Json.arr [])⟩

/-! Helper lemmas about the filesystem and the branches of `read`. -/

theorem fs_write_lookup (fs : FileSystem) (p : String) (f : ParquetFile) :
    (fs.writeFile p f).lookupFile p = some f := by
  simp [FileSystem.writeFile, FileSystem.lookupFile, List.find?]

theorem read_hit_aux (env : HttpEnv) (fs : FileSystem) (t : String)
    (file : ParquetFile) (info : TickerInfo)
    (hinfo : TiingoClient.get_ticker_info (env.infoResponse t) = Except.ok info)
    (hlook : fs.lookupFile (t ++ ".parquet") = some file)
    (hmin : (pd_read_parquet file).dateMin = Except.ok info.startDate)
    (hmax : (pd_read_parquet file).dateMax = Except.ok info.endDate) :
    TickerPriceStorage.read env fs t = ⟨fs, Except.ok (pd_read_parquet file), false⟩ := by
  simp [TickerPriceStorage.read, hinfo, hlook, hmin, hmax]

theorem fetchAndStore_ok (env : HttpEnv) (fs : FileSystem) (t fp : String)
    (info : TickerInfo) (prices : List TickerPrice)
    (hprices : TiingoClient.get_ticker_prices
        (env.pricesResponse t info.startDate info.endDate) = Except.ok prices) :
    TickerPriceStorage.fetchAndStore env fs t info fp =
      ⟨fs.writeFile fp (pd_to_parquet (pd_DataFrame prices)),
       Except.ok (pd_read_parquet (pd_to_parquet (pd_DataFrame prices))), true⟩ := by
  simp [TickerPriceStorage.fetchAndStore, hprices]

theorem fetchAndStore_error (env : HttpEnv) (fs : FileSystem) (t fp : String)
    (info : TickerInfo) (e : PyErr)
    (hprices : TiingoClient.get_ticker_prices
        (env.pricesResponse t info.startDate info.endDate) = Except.error e) :
    TickerPriceStorage.fetchAndStore env fs t info fp = ⟨fs, Except.error e, true⟩ := by
  simp [TickerPriceStorage.fetchAndStore, hprices]

theorem read_miss_none_aux (env : HttpEnv) (fs : FileSystem) (t : String)
    (info : TickerInfo)
    (hinfo : TiingoClient.get_ticker_info (env.infoResponse t) = Except.ok info)
    (hlook : fs.lookupFile (t ++ ".parquet") = none) :
    TickerPriceStorage.read env fs t =
      TickerPriceStorage.fetchAndStore env fs t info (t ++ ".parquet") := by
  simp [TickerPriceStorage.read, hinfo, hlook]

theorem read_info_error_aux (env : HttpEnv) (fs : FileSystem) (t : String) (e : PyErr)
    (hinfo : TiingoClient.get_ticker_info (env.infoResponse t) = Except.error e) :
    TickerPriceStorage.read env fs t = ⟨fs, Except.error e, false⟩ := by
  simp [TickerPriceStorage.read, hinfo]

theorem read_min_error_aux (env : HttpEnv) (fs : FileSystem) (t : String)
    (file : ParquetFile) (info : TickerInfo) (e : PyErr)
    (hinfo : TiingoClient.get_ticker_info (env.infoResponse t) = Except.ok info)
    (hlook : fs.lookupFile (t ++ ".parquet") = some file)
    (hmin : (pd_read_parquet file).dateMin = Except.error e) :
    TickerPriceStorage.read env fs t = ⟨fs, Except.error e, false⟩ := by
  simp [TickerPriceStorage.read, hinfo, hlook, hmin]

theorem read_max_error_aux (env : HttpEnv) (fs : FileSystem) (t : String)
    (file : ParquetFile) (info : TickerInfo) (dmin : PyDate) (e : PyErr)
    (hinfo : TiingoClient.get_ticker_info (env.infoResponse t) = Except.ok info)
    (hlook : fs.lookupFile (t ++ ".parquet") = some file)
    (hmin : (pd_read_parquet file).dateMin = Except.ok dmin)
    (h1 : dmin = info.startDate)
    (hmax : (pd_read_parquet file).dateMax = Except.error e) :
    TickerPriceStorage.read env fs t = ⟨fs, Except.error e, false⟩ := by
  simp [TickerPriceStorage.read, hinfo, hlook, hmin, hmax, h1]

theorem read_miss_minNe_aux (env : HttpEnv) (fs : FileSystem) (t : String)
    (file : ParquetFile) (info : TickerInfo) (dmin : PyDate)
    (hinfo : TiingoClient.get_ticker_info (env.infoResponse t) = Except.ok info)
    (hlook : fs.lookupFile (t ++ ".parquet") = some file)
    (hmin : (pd_read_parquet file).dateMin = Except.ok dmin)
    (h1 : dmin ≠ info.startDate) :
    TickerPriceStorage.read env fs t =
      TickerPriceStorage.fetchAndStore env fs t info (t ++ ".parquet") := by
  simp [TickerPriceStorage.read, hinfo, hlook, hmin, h1]

theorem read_miss_maxNe_aux (env : HttpEnv) (fs : FileSystem) (t : String)
    (file : ParquetFile) (info : TickerInfo) (dmax : PyDate)
    (hinfo : TiingoClient.get_ticker_info (env.infoResponse t) = Except.ok info)
    (hlook : fs.lookupFile (t ++ ".parquet") = some file)
    (hmin : (pd_read_parquet file).dateMin = Except.ok info.startDate)
    (hmax : (pd_read_parquet file).dateMax = Except.ok dmax)
    (h2 : dmax ≠ info.endDate) :
    TickerPriceStorage.read env fs t =
      TickerPriceStorage.fetchAndStore env fs t info (t ++ ".parquet") := by
  simp [TickerPriceStorage.read, hinfo, hlook, hmin, hmax, h2]

theorem read_ok_file_aux (env : HttpEnv) (fs : FileSystem) (t : String) (df : DataFrame)
    (hok : (TickerPriceStorage.read env fs t).res = Except.ok df) :
    (TickerPriceStorage.read env fs t).fs.lookupFile (t ++ ".parquet") =
      some (pd_to_parquet df) := by
  cases hinfo : TiingoClient.get_ticker_info (env.infoResponse t) with
  | error e => rw [read_info_error_aux env fs t e hinfo] at hok; exact absurd hok (by simp)
  | ok info =>
    have fetchCase : TickerPriceStorage.read env fs t =
        TickerPriceStorage.fetchAndStore env fs t info (t ++ ".parquet") →
        (TickerPriceStorage.read env fs t).fs.lookupFile (t ++ ".parquet") =
          some (pd_to_parquet df) := by
      intro hfetch
      rw [hfetch] at hok ⊢
      cases hp : TiingoClient.get_ticker_prices
          (env.pricesResponse t info.startDate info.endDate) with
      | error e => rw [fetchAndStore_error env fs t _ info e hp] at hok; exact absurd hok (by simp)
      | ok prices =>
        rw [fetchAndStore_ok env fs t _ info prices hp] at hok ⊢
        simp only [ReadOutcome.res, Except.ok.injEq] at hok
        rw [← hok]
        exact fs_write_lookup _ _ _
    cases hlook : fs.lookupFile (t ++ ".parquet") with
    | none => exact fetchCase (read_miss_none_aux env fs t info hinfo hlook)
    | some file =>
      cases hmin : (pd_read_parquet file).dateMin with
      | error e =>
        rw [read_min_error_aux env fs t file info e hinfo hlook hmin] at hok
        exact absurd hok (by simp)
      | ok dmin =>
        by_cases h1 : dmin = info.startDate
        · cases hmax : (pd_read_parquet file).dateMax with
          | error e =>
            rw [read_max_error_aux env fs t file info dmin e hinfo hlook hmin h1 hmax] at hok
            exact absurd hok (by simp)
          | ok dmax =>
            by_cases h2 : dmax = info.endDate
            · rw [read_hit_aux env fs t file info hinfo hlook (h1 ▸ hmin) (h2 ▸ hmax)] at hok ⊢
              simp only [ReadOutcome.res, Except.ok.injEq] at hok
              rw [← hok]
              simp only [ReadOutcome.fs, hlook, pd_to_parquet, pd_read_parquet]
            · exact fetchCase (read_miss_maxNe_aux env fs t file info dmax hinfo hlook
                (h1 ▸ hmin) hmax h2)
        · exact fetchCase (read_miss_minNe_aux env fs t file info dmin hinfo hlook hmin h1)

theorem read_error_fs_aux (env : HttpEnv) (fs : FileSystem) (t : String) (e : PyErr)
    (herr : (TickerPriceStorage.read env fs t).res = Except.error e) :
    (TickerPriceStorage.read env fs t).fs = fs := by
  cases hinfo : TiingoClient.get_ticker_info (env.infoResponse t) with
  | error e2 => rw [read_info_error_aux env fs t e2 hinfo]
  | ok info =>
    have fetchCase : TickerPriceStorage.read env fs t =
        TickerPriceStorage.fetchAndStore env fs t info (t ++ ".parquet") →
        (TickerPriceStorage.read env fs t).fs = fs := by
      intro hfetch
      rw [hfetch] at herr ⊢
      cases hp : TiingoClient.get_ticker_prices
          (env.pricesResponse t info.startDate info.endDate) with
      | error e2 => rw [fetchAndStore_error env fs t _ info e2 hp]
      | ok prices =>
        rw [fetchAndStore_ok env fs t _ info prices hp] at herr
        exact absurd herr (by simp)
    cases hlook : fs.lookupFile (t ++ ".parquet") with
    | none => exact fetchCase (read_miss_none_aux env fs t info hinfo hlook)
    | some file =>
      cases hmin : (pd_read_parquet file).dateMin with
      | error e2 => rw [read_min_error_aux env fs t file info e2 hinfo hlook hmin]
      | ok dmin =>
        by_cases h1 : dmin = info.startDate
        · cases hmax : (pd_read_parquet file).dateMax with
          | error e2 => rw [read_max_error_aux env fs t file info dmin e2 hinfo hlook hmin h1 hmax]
          | ok dmax =>
            by_cases h2 : dmax = info.endDate
            · rw [read_hit_aux env fs t file info hinfo hlook (h1 ▸ hmin) (h2 ▸ hmax)]
            · exact fetchCase (read_miss_maxNe_aux env fs t file info dmax hinfo hlook
                (h1 ▸ hmin) hmax h2)
        · exact fetchCase (read_miss_minNe_aux env fs t file info dmin hinfo hlook hmin h1)

theorem read_fetch_error_aux (env : HttpEnv) (fs : FileSystem) (t : String)
    (info : TickerInfo) (e : PyErr)
    (hinfo : TiingoClient.get_ticker_info (env.infoResponse t) = Except.ok info)
    (hfetch : (TickerPriceStorage.read env fs t).fetchedPrices = true)
    (hprices : TiingoClient.get_ticker_prices
        (env.pricesResponse t info.startDate info.endDate) = Except.error e) :
    TickerPriceStorage.read env fs t = ⟨fs, Except.error e, true⟩ := by
  have fetchCase : TickerPriceStorage.read env fs t =
      TickerPriceStorage.fetchAndStore env fs t info (t ++ ".parquet") →
      TickerPriceStorage.read env fs t = ⟨fs, Except.error e, true⟩ := by
    intro hfetch2
    rw [hfetch2, fetchAndStore_error env fs t _ info e hprices]
  cases hlook : fs.lookupFile (t ++ ".parquet") with
  | none => exact fetchCase (read_miss_none_aux env fs t info hinfo hlook)
  | some file =>
    cases hmin : (pd_read_parquet file).dateMin with
    | error e2 =>
      rw [read_min_error_aux env fs t file info e2 hinfo hlook hmin] at hfetch
      exact absurd hfetch (by simp)
    | ok dmin =>
      by_cases h1 : dmin = info.startDate
      · cases hmax : (pd_read_parquet file).dateMax with
        | error e2 =>
          rw [read_max_error_aux env fs t file info dmin e2 hinfo hlook hmin h1 hmax] at hfetch
          exact absurd hfetch (by simp)
        | ok dmax =>
          by_cases h2 : dmax = info.endDate
          · rw [read_hit_aux env fs t file info hinfo hlook (h1 ▸ hmin) (h2 ▸ hmax)] at hfetch
            exact absurd hfetch (by simp)
          · exact fetchCase (read_miss_maxNe_aux env fs t file info dmax hinfo hlook
              (h1 ▸ hmin) hmax h2)
      · exact fetchCase (read_miss_minNe_aux env fs t file info dmin hinfo hlook hmin h1)

/-! Lemmas showing the price path can never raise the ticker-not-found
exception. -/

/-- Every error the computation can produce differs from the module-level
`ErrorTickerNotFound` instance. -/
def NeverTNF {α : Type} (x : Except PyErr α) : Prop :=
  ∀ e, x = Except.error e → e ≠ ErrorTickerNotFound

theorem NeverTNF.bind {α β : Type} {x : Except PyErr α} {f : α → Except PyErr β}
    (hx : NeverTNF x) (hf : ∀ a, NeverTNF (f a)) : NeverTNF (x >>= f) := by
  intro e he
  cases x with
  | error e2 =>
    have : e2 = e := by
      simpa [Bind.bind, Except.bind] using he
    exact this ▸ hx e2 rfl
  | ok a =>
    have : f a = Except.error e := by
      simpa [Bind.bind, Except.bind] using he
    exact hf a e this

theorem NeverTNF.ok {α : Type} (a : α) : NeverTNF (Except.ok (ε := PyErr) a) := by
  intro e he; exact absurd he (by simp)

theorem NeverTNF.pure {α : Type} (a : α) : NeverTNF (pure (f := Except PyErr) a) :=
  NeverTNF.ok a

theorem getItem_neverTNF (j : Json) (k : String) : NeverTNF (j.getItem k) := by
  intro e he
  cases j <;> simp [Json.getItem] at he <;> try (rw [← he]; simp [ErrorTickerNotFound])
  · rename_i kvs
    rcases hf : kvs.reverse.find? (fun kv => kv.1 = k) with _ | kv
    · simp [hf] at he; rw [← he]; simp [ErrorTickerNotFound]
    · simp [hf] at he

theorem requireStr_neverTNF (j : Json) : NeverTNF (requireStr j) := by
  intro e he
  cases j <;> simp [requireStr] at he <;> (rw [← he]; simp [ErrorTickerNotFound])

theorem date_fromisoformat_neverTNF (s : String) : NeverTNF (date_fromisoformat s) := by
  intro e he
  unfold date_fromisoformat at he
  split at he
  · split at he
    · dsimp only at he
      split at he
      · exact absurd he (by simp)
      · simp at he; rw [← he]; simp [ErrorTickerNotFound]
    · simp at he; rw [← he]; simp [ErrorTickerNotFound]
  · simp at he; rw [← he]; simp [ErrorTickerNotFound]

theorem datetime_fromisoformat_date_neverTNF (s : String) :
    NeverTNF (datetime_fromisoformat_date s) :=
  date_fromisoformat_neverTNF s

theorem response_json_neverTNF (r : Response) : NeverTNF r.json := by
  intro e he
  cases hb : r.body with
  | none => simp [Response.json, hb] at he; rw [← he]; simp [ErrorTickerNotFound]
  | some j => simp [Response.json, hb] at he

theorem pyIterate_neverTNF (j : Json) : NeverTNF (pyIterate j) := by
  intro e he
  cases j <;> simp [pyIterate] at he <;> (rw [← he]; simp [ErrorTickerNotFound])

theorem from_json_neverTNF (j : Json) : NeverTNF (TickerPrice.from_json j) := by
  unfold TickerPrice.from_json
  refine NeverTNF.bind (getItem_neverTNF _ _) fun a => ?_
  refine NeverTNF.bind (requireStr_neverTNF _) fun a => ?_
  refine NeverTNF.bind (datetime_fromisoformat_date_neverTNF _) fun a => ?_
  refine NeverTNF.bind (getItem_neverTNF _ _) fun a => ?_
  refine NeverTNF.bind (getItem_neverTNF _ _) fun a => ?_
  refine NeverTNF.bind (getItem_neverTNF _ _) fun a => ?_
  refine NeverTNF.bind (getItem_neverTNF _ _) fun a => ?_
  refine NeverTNF.bind (getItem_neverTNF _ _) fun a => ?_
  refine NeverTNF.bind (getItem_neverTNF _ _) fun a => ?_
  refine NeverTNF.bind (getItem_neverTNF _ _) fun a => ?_
  refine NeverTNF.bind (getItem_neverTNF _ _) fun a => ?_
  refine NeverTNF.bind (getItem_neverTNF _ _) fun a => ?_
  refine NeverTNF.bind (getItem_neverTNF _ _) fun a => ?_
  refine NeverTNF.bind (getItem_neverTNF _ _) fun a => ?_
  refine NeverTNF.bind (getItem_neverTNF _ _) fun a => ?_
  exact NeverTNF.pure _

theorem mapFromJson_neverTNF (xs : List Json) : NeverTNF (mapFromJson xs) := by
  induction xs with
  | nil => exact NeverTNF.ok _
  | cons p rest ih =>
    unfold mapFromJson
    refine NeverTNF.bind (from_json_neverTNF p) fun a => ?_
    refine NeverTNF.bind ih fun a => ?_
    exact NeverTNF.pure _

theorem get_ticker_prices_neverTNF (resp : Response) :
    NeverTNF (TiingoClient.get_ticker_prices resp) := by
  unfold TiingoClient.get_ticker_prices
  refine NeverTNF.bind (response_json_neverTNF _) fun a => ?_
  refine NeverTNF.bind (pyIterate_neverTNF _) fun a => ?_
  exact mapFromJson_neverTNF a

/-! The claims. -/

/-- C1: for every ticker, if a cache file exists at the ticker's computed
location and the loaded table's minimum date equals the provider
metadata's startDate and its maximum date equals the metadata's endDate,
then `read` returns that loaded table immediately, with no
`get_ticker_prices` call and no write to the cache file (the filesystem is
returned unchanged). -/
theorem read_cache_hit_claim (env : HttpEnv) (fs : FileSystem) (t : String)
    (file : ParquetFile) (info : TickerInfo)
    (hinfo : TiingoClient.get_ticker_info (env.infoResponse t) = Except.ok info)
    (hlook : fs.lookupFile (t ++ ".parquet") = some file)
    (hmin : (pd_read_parquet file).dateMin = Except.ok info.startDate)
    (hmax : (pd_read_parquet file).dateMax = Except.ok info.endDate) :
    TickerPriceStorage.read env fs t = ⟨fs, Except.ok (pd_read_parquet file), false⟩ :=
  read_hit_aux env fs t file info hinfo hlook hmin hmax

/-- Witness for C1: a concrete cache hit — the stored QQQ file spans
exactly the metadata range 2020-01-02..2020-01-03. -/
theorem read_cache_hit_claim_witness :
    TickerPriceStorage.read alignedEnv hitFS "QQQ" =
      ⟨hitFS, Except.ok (pd_read_parquet hitFile), false⟩ :=
  read_cache_hit_claim alignedEnv hitFS "QQQ" hitFile alignedInfo rfl rfl rfl rfl

/-- C2: for every ticker, if no cache file exists or the cached table's
date bounds differ from the metadata's startDate/endDate, `read` calls
`get_ticker_prices(ticker, startDate, endDate)`, persists the full
returned sequence to the cache file (unconditionally overwriting any prior
content), and returns the table obtained by re-loading the just-written
file from disk. -/
theorem read_cache_miss_claim (env : HttpEnv) (fs : FileSystem) (t : String)
    (info : TickerInfo) (prices : List TickerPrice)
    (hinfo : TiingoClient.get_ticker_info (env.infoResponse t) = Except.ok info)
    (hmiss : fs.lookupFile (t ++ ".parquet") = none ∨
      ∃ file dmin dmax, fs.lookupFile (t ++ ".parquet") = some file ∧
        (pd_read_parquet file).dateMin = Except.ok dmin ∧
        (pd_read_parquet file).dateMax = Except.ok dmax ∧
        ¬(dmin = info.startDate ∧ dmax = info.endDate))
    (hprices : TiingoClient.get_ticker_prices
        (env.pricesResponse t info.startDate info.endDate) = Except.ok prices) :
    TickerPriceStorage.read env fs t =
      ⟨fs.writeFile (t ++ ".parquet") (pd_to_parquet (pd_DataFrame prices)),
       Except.ok (pd_read_parquet (pd_to_parquet (pd_DataFrame prices))), true⟩ := by
  rcases hmiss with hnone | ⟨file, dmin, dmax, hlook, hmin, hmax, hstale⟩
  · rw [read_miss_none_aux env fs t info hinfo hnone]
    exact fetchAndStore_ok env fs t _ info prices hprices
  · by_cases h1 : dmin = info.startDate
    · have h2 : dmax ≠ info.endDate := fun h2 => hstale ⟨h1, h2⟩
      rw [read_miss_maxNe_aux env fs t file info dmax hinfo hlook (h1 ▸ hmin) hmax h2]
      exact fetchAndStore_ok env fs t _ info prices hprices
    · rw [read_miss_minNe_aux env fs t file info dmin hinfo hlook hmin h1]
      exact fetchAndStore_ok env fs t _ info prices hprices

/-- Witness for C2: a concrete cache miss on an empty filesystem, fetching
the two QQQ rows and writing them through the parquet round trip. -/
theorem read_cache_miss_claim_witness :
    TickerPriceStorage.read qqqEnv emptyFS "QQQ" =
      ⟨emptyFS.writeFile "QQQ.parquet"
         (pd_to_parquet (pd_DataFrame [priceRow ⟨2020, 1, 2⟩, priceRow ⟨2020, 1, 3⟩])),
       Except.ok (pd_read_parquet (pd_to_parquet
         (pd_DataFrame [priceRow ⟨2020, 1, 2⟩, priceRow ⟨2020, 1, 3⟩]))), true⟩ :=
  read_cache_miss_claim qqqEnv emptyFS "QQQ"
    ⟨Json.str "QQQ", Json.str "Invesco QQQ", Json.str "NASDAQ", Json.str "ETF",
     ⟨2020, 1, 1⟩, ⟨2020, 1, 3⟩⟩ [priceRow ⟨2020, 1, 2⟩, priceRow ⟨2020, 1, 3⟩]
    rfl (Or.inl rfl) rfl

/-- C3 counterexample: with unchanged provider data — the spec's own §8
scenario, where the provider's rows start at 2020-01-02 while metadata
reports startDate 2020-01-01 — the second `read` is NOT a cache hit: it
issues a price fetch, refuting the claim that two successive reads under
identical provider responses make the second call a cache-hit. -/
theorem read_twice_not_cache_hit_counterexample :
    ¬ ((TickerPriceStorage.read qqqEnv
          (TickerPriceStorage.read qqqEnv (TickerPriceStorage.init emptyFS) "QQQ").fs
          "QQQ").fetchedPrices = false) := by
  intro h
  exact absurd (rfl.trans h) (by decide)

/-- C3 amended: if two successive `read` calls observe identical provider
responses AND the table returned by the first call has minimum date equal
to the metadata's startDate and maximum date equal to its endDate (i.e.
the provider's rows span exactly the reported range), then the second call
takes the cache-hit path — no fetch, no write, the filesystem (hence the
cache file) unchanged — and returns the same table as the first call. -/
theorem read_idempotent_amended (env : HttpEnv) (fs : FileSystem) (t : String)
    (info : TickerInfo) (df1 : DataFrame)
    (hinfo : TiingoClient.get_ticker_info (env.infoResponse t) = Except.ok info)
    (h1 : (TickerPriceStorage.read env fs t).res = Except.ok df1)
    (hmin : df1.dateMin = Except.ok info.startDate)
    (hmax : df1.dateMax = Except.ok info.endDate) :
    TickerPriceStorage.read env (TickerPriceStorage.read env fs t).fs t =
      ⟨(TickerPriceStorage.read env fs t).fs, Except.ok df1, false⟩ := by
  have hfile := read_ok_file_aux env fs t df1 h1
  exact read_hit_aux env (TickerPriceStorage.read env fs t).fs t (pd_to_parquet df1) info
    hinfo hfile hmin hmax

/-- Witness for the amended C3: with provider rows spanning exactly the
metadata range, the second read is a cache hit returning the same table. -/
theorem read_idempotent_amended_witness :
    TickerPriceStorage.read alignedEnv
        (TickerPriceStorage.read alignedEnv (TickerPriceStorage.init emptyFS) "QQQ").fs "QQQ" =
      ⟨(TickerPriceStorage.read alignedEnv (TickerPriceStorage.init emptyFS) "QQQ").fs,
       Except.ok (pd_DataFrame [priceRow ⟨2020, 1, 2⟩, priceRow ⟨2020, 1, 3⟩]), false⟩ :=
  read_idempotent_amended alignedEnv (TickerPriceStorage.init emptyFS) "QQQ" alignedInfo
    (pd_DataFrame [priceRow ⟨2020, 1, 2⟩, priceRow ⟨2020, 1, 3⟩]) rfl rfl rfl rfl

/-- C4: `get_ticker_info` on any non-200 response raises exactly the
`TickerNotFound` error (and no other error type); on a 200 response it
returns a `TickerInfo` built from the JSON body's six fields, with
`startDate`/`endDate` converted from ISO-8601 calendar-date strings. -/
theorem get_ticker_info_status_claim (resp : Response) :
    (resp.status ≠ 200 →
      TiingoClient.get_ticker_info resp = Except.error ErrorTickerNotFound) ∧
    (∀ j tkr nm ex de sd ed d1 d2,
      resp.status = 200 →
      resp.body = some j →
      j.getItem "ticker" = Except.ok tkr →
      j.getItem "name" = Except.ok nm →
      j.getItem "exchangeCode" = Except.ok ex →
      j.getItem "description" = Except.ok de →
      j.getItem "startDate" = Except.ok (Json.str sd) →
      date_fromisoformat sd = Except.ok d1 →
      j.getItem "endDate" = Except.ok (Json.str ed) →
      date_fromisoformat ed = Except.ok d2 →
      TiingoClient.get_ticker_info resp = Except.ok ⟨tkr, nm, ex, de, d1, d2⟩) := by
  constructor
  · intro h
    simp [TiingoClient.get_ticker_info, h]
  · intro j tkr nm ex de sd ed d1 d2 hst hb h1 h2 h3 h4 h5 h6 h7 h8
    simp [TiingoClient.get_ticker_info, hst, Response.json, hb, h1, h2, h3, h4, h5, h6, h7, h8,
          requireStr, Bind.bind, Except.bind, Pure.pure, Except.pure]

/-- Witness for C4: a concrete 404 raising `ErrorTickerNotFound`, and a
concrete 200 parsing to the expected `TickerInfo`. -/
theorem get_ticker_info_status_claim_witness :
    TiingoClient.get_ticker_info ⟨404, some (Json.obj [("detail", Json.str "Not found.")])⟩ =
      Except.error ErrorTickerNotFound ∧
    TiingoClient.get_ticker_info (alignedEnv.infoResponse "QQQ") = Except.ok alignedInfo :=
  ⟨(get_ticker_info_status_claim _).1 (by decide),
   (get_ticker_info_status_claim _).2 _ _ _ _ _ "2020-01-02" "2020-01-03" _ _
     rfl rfl rfl rfl rfl rfl rfl rfl rfl rfl⟩

/-- C5: `get_ticker_prices` never inspects the HTTP status code — two
responses with the same body give the same result regardless of status;
a JSON-array body is mapped element by element, in order, through
`TickerPrice.from_json`; and no outcome is ever the `TickerNotFound`
error. -/
theorem get_ticker_prices_status_blind_claim :
    (∀ s1 s2 b, TiingoClient.get_ticker_prices ⟨s1, b⟩ =
        TiingoClient.get_ticker_prices ⟨s2, b⟩) ∧
    (∀ resp xs, resp.body = some (Json.arr xs) →
        TiingoClient.get_ticker_prices resp = mapFromJson xs) ∧
    (∀ resp e, TiingoClient.get_ticker_prices resp = Except.error e →
        e ≠ ErrorTickerNotFound) := by
  refine ⟨fun s1 s2 b => rfl, fun resp xs hb => ?_,
          fun resp e he => get_ticker_prices_neverTNF resp e he⟩
  simp [TiingoClient.get_ticker_prices, Response.json, hb, pyIterate, Bind.bind, Except.bind]

/-- Witness for C5: a 404 and a 200 with the same array body agree; a 404
array body parses as an (empty) price list; an unparseable body's error is
not `TickerNotFound`. -/
theorem get_ticker_prices_status_blind_claim_witness :
    TiingoClient.get_ticker_prices ⟨404, some (Json.arr [])⟩ =
      TiingoClient.get_ticker_prices ⟨200, some (Json.arr [])⟩ ∧
    TiingoClient.get_ticker_prices ⟨404, some (Json.arr [])⟩ = mapFromJson [] ∧
    PyErr.jsonDecodeError ≠ ErrorTickerNotFound :=
  ⟨get_ticker_prices_status_blind_claim.1 404 200 (some (Json.arr [])),
   get_ticker_prices_status_blind_claim.2.1 ⟨404, some (Json.arr [])⟩ [] rfl,
   get_ticker_prices_status_blind_claim.2.2 ⟨404, none⟩ PyErr.jsonDecodeError rfl⟩

/-- C6: on the spec's literal JSON object, `TickerPrice.from_json` yields
date 2024-01-02, passes date/open/high/low/close/volume through, and
renames adjOpen/adjHigh/adjLow/adjClose/adjVolume/divCash/splitFactor to
the adjusted_*, dividend_cash and split_factor fields unchanged. -/
theorem from_json_field_mapping_claim :
    TickerPrice.from_json (Json.obj
      [("date", Json.str "2024-01-02"), ("open", Json.num 100.0), ("high", Json.num 101.5),
       ("low", Json.num 99.0), ("close", Json.num 100.5), ("volume", Json.num 1000),
       ("adjOpen", Json.num 100.0), ("adjHigh", Json.num 101.5), ("adjLow", Json.num 99.0),
       ("adjClose", Json.num 100.5), ("adjVolume", Json.num 1000), ("divCash", Json.num 0.0),
       ("splitFactor", Json.num 1.0)]) =
    Except.ok
      { date := ⟨2024, 1, 2⟩, «open» := Json.num 100.0, high := Json.num 101.5,
        low := Json.num 99.0, close := Json.num 100.5, volume := Json.num 1000,
        adjusted_open := Json.num 100.0, adjusted_high := Json.num 101.5,
        adjusted_low := Json.num 99.0, adjusted_close := Json.num 100.5,
        adjusted_volume := Json.num 1000, dividend_cash := Json.num 0.0,
        split_factor := Json.num 1.0 } := rfl

/-- C7: a failing metadata fetch makes `read` fail with that error and the
filesystem unchanged; a failure during the price fetch (when the fetch
path is taken) likewise fails the call with the filesystem unchanged; and
in general whenever `read` fails the cache file's prior content or absence
is exactly preserved, because the write happens only after the full price
sequence is obtained. -/
theorem read_failure_no_partial_write_claim (env : HttpEnv) (fs : FileSystem) (t : String) :
    (∀ e, TiingoClient.get_ticker_info (env.infoResponse t) = Except.error e →
      TickerPriceStorage.read env fs t = ⟨fs, Except.error e, false⟩) ∧
    (∀ info e, TiingoClient.get_ticker_info (env.infoResponse t) = Except.ok info →
      (TickerPriceStorage.read env fs t).fetchedPrices = true →
      TiingoClient.get_ticker_prices (env.pricesResponse t info.startDate info.endDate) =
        Except.error e →
      TickerPriceStorage.read env fs t = ⟨fs, Except.error e, true⟩) ∧
    (∀ e, (TickerPriceStorage.read env fs t).res = Except.error e →
      (TickerPriceStorage.read env fs t).fs = fs) :=
  ⟨fun e hinfo => read_info_error_aux env fs t e hinfo,
   fun info e hinfo hfetch hp => read_fetch_error_aux env fs t info e hinfo hfetch hp,
   fun e herr => read_error_fs_aux env fs t e herr⟩

/-- Witness for C7: a metadata parse failure and a price-body parse
failure each fail the `read` call and leave the filesystem untouched. -/
theorem read_failure_no_partial_write_claim_witness :
    TickerPriceStorage.read noJsonEnv emptyFS "QQQ" =
      ⟨emptyFS, Except.error PyErr.jsonDecodeError, false⟩ ∧
    TickerPriceStorage.read badPricesEnv emptyFS "QQQ" =
      ⟨emptyFS, Except.error PyErr.jsonDecodeError, true⟩ ∧
    (TickerPriceStorage.read badPricesEnv emptyFS "QQQ").fs = emptyFS :=
  ⟨(read_failure_no_partial_write_claim noJsonEnv emptyFS "QQQ").1 PyErr.jsonDecodeError rfl,
   (read_failure_no_partial_write_claim badPricesEnv emptyFS "QQQ").2.1
     alignedInfo PyErr.jsonDecodeError rfl rfl rfl,
   (read_failure_no_partial_write_claim badPricesEnv emptyFS "QQQ").2.2
     PyErr.jsonDecodeError rfl⟩

/-- C8: starting from an absent cache directory, with ticker QQQ and a
provider reporting startDate 2020-01-01 / endDate 2020-01-03 and returning
exactly the two rows 2020-01-02 and 2020-01-03, `read` (after `init`
creates the storage directory) writes exactly one cache file and returns
the table with exactly those two rows in ascending date order. -/
theorem read_qqq_scenario_claim :
    (TickerPriceStorage.read qqqEnv (TickerPriceStorage.init emptyFS) "QQQ").fs.dirExists = true ∧
    (TickerPriceStorage.read qqqEnv (TickerPriceStorage.init emptyFS) "QQQ").fs.files =
      [("QQQ.parquet",
        pd_to_parquet (pd_DataFrame [priceRow ⟨2020, 1, 2⟩, priceRow ⟨2020, 1, 3⟩]))] ∧
    (TickerPriceStorage.read qqqEnv (TickerPriceStorage.init emptyFS) "QQQ").res =
      Except.ok (pd_DataFrame [priceRow ⟨2020, 1, 2⟩, priceRow ⟨2020, 1, 3⟩]) ∧
    (priceRow ⟨2020, 1, 2⟩).date.key < (priceRow ⟨2020, 1, 3⟩).date.key :=
  ⟨rfl, rfl, rfl, by decide⟩

/-- C9: `ErrorTickerNotFound` is the one module-level exception value,
carrying the fixed message "Ticker not found"; every failing
`get_ticker_info` call, for any response and any non-200 status, raises
that very value, with no per-call detail: any two failing calls raise the
same error. -/
theorem error_single_instance_claim :
    ErrorTickerNotFound = PyErr.exception "Ticker not found" ∧
    (∀ resp : Response, resp.status ≠ 200 →
      TiingoClient.get_ticker_info resp = Except.error ErrorTickerNotFound) ∧
    (∀ r1 r2 : Response, r1.status ≠ 200 → r2.status ≠ 200 →
      TiingoClient.get_ticker_info r1 = TiingoClient.get_ticker_info r2) := by
  refine ⟨rfl, fun resp h => by simp [TiingoClient.get_ticker_info, h], fun r1 r2 h1 h2 => ?_⟩
  simp [TiingoClient.get_ticker_info, h1, h2]

/-- Witness for C9: a 404 and a 500 both raise the same
`ErrorTickerNotFound` value. -/
theorem error_single_instance_claim_witness :
    TiingoClient.get_ticker_info ⟨404, some (Json.obj [])⟩ =
      Except.error ErrorTickerNotFound ∧
    TiingoClient.get_ticker_info ⟨404, some (Json.obj [])⟩ =
      TiingoClient.get_ticker_info ⟨500, none⟩ :=
  ⟨error_single_instance_claim.2.1 ⟨404, some (Json.obj [])⟩ (by decide),
   error_single_instance_claim.2.2 ⟨404, some (Json.obj [])⟩ ⟨500, none⟩
     (by decide) (by decide)⟩

/-- C10: on a cache miss — the file absent, or present with date bounds
not matching the metadata — with `get_ticker_prices` returning an empty
sequence, `read` writes the zero-row frame (which has zero columns) to the
cache file and returns it without error; the next `read` for the same
ticker then fails with the `KeyError` raised while evaluating the
freshness check (`df['date']` on the column-less frame), without
re-fetching, and leaves the filesystem unchanged — so every subsequent
read fails identically. -/
theorem read_empty_prices_claim (env : HttpEnv) (fs : FileSystem) (t : String)
    (info : TickerInfo)
    (hinfo : TiingoClient.get_ticker_info (env.infoResponse t) = Except.ok info)
    (hmiss : fs.lookupFile (t ++ ".parquet") = none ∨
      ∃ file dmin dmax, fs.lookupFile (t ++ ".parquet") = some file ∧
        (pd_read_parquet file).dateMin = Except.ok dmin ∧
        (pd_read_parquet file).dateMax = Except.ok dmax ∧
        ¬(dmin = info.startDate ∧ dmax = info.endDate))
    (hprices : TiingoClient.get_ticker_prices
        (env.pricesResponse t info.startDate info.endDate) = Except.ok []) :
    TickerPriceStorage.read env fs t =
      ⟨fs.writeFile (t ++ ".parquet") (pd_to_parquet (pd_DataFrame [])),
       Except.ok (pd_DataFrame []), true⟩ ∧
    (pd_DataFrame []).columns = [] ∧
    TickerPriceStorage.read env
        (fs.writeFile (t ++ ".parquet") (pd_to_parquet (pd_DataFrame []))) t =
      ⟨fs.writeFile (t ++ ".parquet") (pd_to_parquet (pd_DataFrame [])),
       Except.error (PyErr.keyError "date"), false⟩ := by
  refine ⟨?_, rfl, ?_⟩
  · rcases hmiss with hnone | ⟨file, dmin, dmax, hlook, hmin, hmax, hstale⟩
    · rw [read_miss_none_aux env fs t info hinfo hnone]
      exact fetchAndStore_ok env fs t _ info [] hprices
    · by_cases h1 : dmin = info.startDate
      · have h2 : dmax ≠ info.endDate := fun h2 => hstale ⟨h1, h2⟩
        rw [read_miss_maxNe_aux env fs t file info dmax hinfo hlook (h1 ▸ hmin) hmax h2]
        exact fetchAndStore_ok env fs t _ info [] hprices
      · rw [read_miss_minNe_aux env fs t file info dmin hinfo hlook hmin h1]
        exact fetchAndStore_ok env fs t _ info [] hprices
  · exact read_min_error_aux env _ t (pd_to_parquet (pd_DataFrame [])) info
      (PyErr.keyError "date") hinfo (fs_write_lookup fs _ _) rfl

/-- Witness for C10: a provider with an empty price array; the first read
writes and returns the empty frame, the second fails with the date
`KeyError` and changes nothing. -/
theorem read_empty_prices_claim_witness :
    TickerPriceStorage.read emptyPricesEnv emptyFS "QQQ" =
      ⟨emptyFS.writeFile "QQQ.parquet" (pd_to_parquet (pd_DataFrame [])),
       Except.ok (pd_DataFrame []), true⟩ ∧
    (pd_DataFrame []).columns = [] ∧
    TickerPriceStorage.read emptyPricesEnv
        (emptyFS.writeFile "QQQ.parquet" (pd_to_parquet (pd_DataFrame []))) "QQQ" =
      ⟨emptyFS.writeFile "QQQ.parquet" (pd_to_parquet (pd_DataFrame [])),
       Except.error (PyErr.keyError "date"), false⟩ :=
  read_empty_prices_claim emptyPricesEnv emptyFS "QQQ" alignedInfo rfl (Or.inl rfl) rfl
